import Mathlib

/-
Verification of the core pipeline of sql-research-assistant
(src/sql-research-assistant/app/chain.py) against its design spec.

The source file builds a two-stage langchain pipeline:

  chain_notypes = (
          RunnablePassthrough().assign(research_summary = search_chain) | writer_chain
  )
  class InputType(BaseModel):
      question: str
  chain = chain_notypes.with_types(input_type = InputType)

We embed the runtime behaviour of this composition shallowly.  A langchain
context is a Python dict with string keys; `RunnablePassthrough().assign(k = r)`
invokes `r` on the whole input dict and returns the dict `{**input, k: result}`
(langchain RunnableAssign semantics: the assigned key overwrites an existing
entry, all other entries pass through).  `|` is Runnable composition, and
`with_types` wraps the runnable into a RunnableBinding carrying the declared
input schema as metadata only: its `invoke` delegates to the bound runnable
unconditionally, performing no runtime validation.

The two stages, `search_chain` (app/search/web.py) and `writer_chain`
(app/writer.py), are imported by chain.py but their sources are not part of
this repository snapshot, so the pipeline is stated over abstract stage
functions `Ctx → Except Err String`; concrete stage models taken from the
spec's stage contracts are given below where a claim needs them.
-/

set_option autoImplicit false

namespace SqlResearchAssistant

/-- An unrecoverable error raised by a stage (e.g. a failed generation call). -/
structure Err where
  msg : String
deriving DecidableEq, Repr

/-- A pipeline context: a Python dict with string keys and string values,
rendered as an association list without duplicate keys in practice;
`get` returns the first binding of a key. -/
abbrev Ctx := List (String × String)

/-- Dict lookup `d[k]` / `d.get(k)`. -/
def Ctx.get : Ctx → String → Option String
  | [], _ => none
  | (k0, v0) :: rest, k => if k0 = k then some v0 else Ctx.get rest k

/-- Python dict update `{**d, k: v}`: an existing binding of `k` is
overwritten in place, otherwise `(k, v)` is appended at the end. -/
def Ctx.set : Ctx → String → String → Ctx
  | [], k, v => [(k, v)]
  | (k0, v0) :: rest, k, v =>
      if k0 = k then (k, v) :: rest else (k0, v0) :: Ctx.set rest k v

theorem Ctx.get_set_same (c : Ctx) (k v : String) :
    Ctx.get (Ctx.set c k v) k = some v := by
  induction c with
  | nil => simp [Ctx.set, Ctx.get]
  | cons hd tl ih =>
    obtain ⟨k0, v0⟩ := hd
    by_cases h : k0 = k
    · subst h
      simp [Ctx.set, Ctx.get]
    · simp [Ctx.set, Ctx.get, h, ih]

theorem Ctx.get_set_ne (c : Ctx) (k k' v : String) (h : k' ≠ k) :
    Ctx.get (Ctx.set c k v) k' = Ctx.get c k' := by
  induction c with
  | nil => simp [Ctx.set, Ctx.get, Ne.symm h]
  | cons hd tl ih =>
    obtain ⟨k0, v0⟩ := hd
    by_cases hk : k0 = k
    · subst hk
      simp [Ctx.set, Ctx.get, Ne.symm h]
    · simp [Ctx.set, Ctx.get, hk, ih]

theorem Ctx.get_set (c : Ctx) (k k' v : String) :
    Ctx.get (Ctx.set c k v) k' = if k' = k then some v else Ctx.get c k' := by
  by_cases h : k' = k
  · subst h
    simp [Ctx.get_set_same]
  · simp [h, Ctx.get_set_ne _ _ _ _ h]

/-- First half of chain.py line 14:
`RunnablePassthrough().assign(research_summary = search_chain)`.
langchain's RunnableAssign invokes `search_chain` on the whole input mapping
and, on success, returns `{**input, "research_summary": result}`; a stage
error propagates. -/
def assign_research_summary (search_chain : Ctx → Except Err String)
    (ctx : Ctx) : Except Err Ctx :=
  (search_chain ctx).map (fun s => Ctx.set ctx "research_summary" s)

/-- chain.py lines 13-15: `chain_notypes = RunnablePassthrough().assign(
research_summary = search_chain) | writer_chain` — the assign step followed by
the writer stage on the enriched context. -/
def chain_notypes (search_chain writer_chain : Ctx → Except Err String)
    (ctx : Ctx) : Except Err String :=
  (assign_research_summary search_chain ctx).bind writer_chain

/-- One stage invocation performed by the pipeline, recording which stage ran
and the exact context it received. -/
inductive Call where
  | search (input : Ctx)
  | writer (input : Ctx)
deriving DecidableEq, Repr

/-- Instrumented run of `chain_notypes`: the same computation, also returning
the ordered list of stage invocations with the context each stage received. -/
def chain_notypes_trace (search_chain writer_chain : Ctx → Except Err String)
    (ctx : Ctx) : Except Err String × List Call :=
  match search_chain ctx with
  | .error e => (.error e, [Call.search ctx])
  | .ok s =>
      let merged := Ctx.set ctx "research_summary" s
      (writer_chain merged, [Call.search ctx, Call.writer merged])

theorem chain_notypes_trace_fst (search_chain writer_chain : Ctx → Except Err String)
    (ctx : Ctx) :
    (chain_notypes_trace search_chain writer_chain ctx).1 =
      chain_notypes search_chain writer_chain ctx := by
  unfold chain_notypes_trace chain_notypes assign_research_summary
  cases h : search_chain ctx <;> simp [Except.map, Except.bind, h]

/-- chain.py lines 18-19: the pydantic input schema `InputType` with the single
required field `question : str`.  A mapping conforms to the schema when it
binds the key "question"; every string, the empty string included, is a valid
`str`. -/
def InputType.conforms (ctx : Ctx) : Bool :=
  (Ctx.get ctx "question").isSome

/-- langchain's `Runnable.with_types(input_type = ...)` wraps the runnable in a
RunnableBinding that carries the declared schema as metadata; `invoke`
delegates to the bound runnable unconditionally. -/
structure RunnableBinding where
  bound : Ctx → Except Err String
  input_conforms : Ctx → Bool

/-- RunnableBinding.invoke: delegate to the bound runnable; the schema
metadata is not consulted at runtime. -/
def RunnableBinding.invoke (rb : RunnableBinding) (ctx : Ctx) :
    Except Err String :=
  rb.bound ctx

/-- The wrapping operator `with_types(input_type = ...)`. -/
def with_types (r : Ctx → Except Err String) (conforms : Ctx → Bool) :
    RunnableBinding :=
  ⟨r, conforms⟩

/-- chain.py line 22: `chain = chain_notypes.with_types(input_type = InputType)`. -/
def chain (search_chain writer_chain : Ctx → Except Err String) :
    RunnableBinding :=
  with_types (chain_notypes search_chain writer_chain) InputType.conforms

theorem chain_notypes_ok_elim (search_chain writer_chain : Ctx → Except Err String)
    (ctx : Ctx) (t : String)
    (ht : chain_notypes search_chain writer_chain ctx = .ok t) :
    ∃ s, search_chain ctx = .ok s ∧
      writer_chain (Ctx.set ctx "research_summary" s) = .ok t := by
  cases hs : search_chain ctx with
  | error e =>
    simp [chain_notypes, assign_research_summary, hs, Except.map, Except.bind] at ht
  | ok s =>
    refine ⟨s, rfl, ?_⟩
    simpa [chain_notypes, assign_research_summary, hs, Except.map,
      Except.bind] using ht

theorem assign_ok_iff (search_chain : Ctx → Except Err String) (ctx m : Ctx) :
    assign_research_summary search_chain ctx = .ok m ↔
      ∃ s, search_chain ctx = .ok s ∧ m = Ctx.set ctx "research_summary" s := by
  unfold assign_research_summary
  cases h : search_chain ctx <;> simp [Except.map, h, eq_comm]

/-- Modelled from the spec: `app/search/web.py` (the Web Search Stage,
imported by chain.py as `search_chain`) is not part of this snapshot.
Spec 4.1 gives its contract `summarize_research(question: string) -> string`,
computed from, and only from, the `question` field of the invocation's
context; the search/summarization itself is the abstract provider
`summarize_research`. -/
def search_chain_model (summarize_research : String → Except Err String)
    (ctx : Ctx) : Except Err String :=
  summarize_research ((Ctx.get ctx "question").getD "")

/-- Modelled from the spec: `app/writer.py` (the Writer Stage, imported by
chain.py as `writer_chain`) is not part of this snapshot.  Spec 4.2 gives its
contract `write_answer(question, research_summary) -> string` reading both
fields from the enriched context; the generation itself is the abstract
provider `write_answer`. -/
def writer_chain_model (write_answer : String → String → Except Err String)
    (ctx : Ctx) : Except Err String :=
  write_answer ((Ctx.get ctx "question").getD "")
    ((Ctx.get ctx "research_summary").getD "")

/-- A concrete summarization provider used to evaluate the pipeline on
closed inputs. -/
def demoSummarize (q : String) : Except Err String :=
  .ok ("summary:" ++ q)

/-- A concrete generation provider used to evaluate the pipeline on
closed inputs. -/
def demoWrite (q s : String) : Except Err String :=
  .ok ("answer:" ++ q ++ ";" ++ s)

/-- A generation provider with a fixed non-empty output. -/
def constWrite (_q _s : String) : Except Err String :=
  .ok "ok"

/-- A search stage that fails on every input, as when no network endpoint is
reachable. -/
def failSearch (_ctx : Ctx) : Except Err String :=
  .error ⟨"network unreachable"⟩

/-- C1: whenever the Web Search Stage succeeds, the orchestrator merges its
output into the context under the key research_summary without discarding any
prior field: the context handed to the Writer Stage still binds the original
question unchanged, alongside the new research_summary binding. -/
theorem C1 (search_chain writer_chain : Ctx → Except Err String) (ctx : Ctx)
    (s q : String)
    (hs : search_chain ctx = .ok s)
    (hq : Ctx.get ctx "question" = some q) :
    (chain_notypes_trace search_chain writer_chain ctx).2 =
      [Call.search ctx, Call.writer (Ctx.set ctx "research_summary" s)] ∧
    Ctx.get (Ctx.set ctx "research_summary" s) "question" = some q ∧
    Ctx.get (Ctx.set ctx "research_summary" s) "research_summary" = some s := by
  refine ⟨?_, ?_, Ctx.get_set_same ctx _ s⟩
  · simp [chain_notypes_trace, hs]
  · rw [Ctx.get_set_ne ctx _ _ _ (by decide)]
    exact hq

/-- C1 applied to the concrete context with question "hi" and the demo
stages. -/
theorem C1_witness :
    (chain_notypes_trace (search_chain_model demoSummarize)
        (writer_chain_model demoWrite) [("question", "hi")]).2 =
      [Call.search [("question", "hi")],
       Call.writer (Ctx.set [("question", "hi")] "research_summary" "summary:hi")] ∧
    Ctx.get (Ctx.set [("question", "hi")] "research_summary" "summary:hi")
        "question" = some "hi" ∧
    Ctx.get (Ctx.set [("question", "hi")] "research_summary" "summary:hi")
        "research_summary" = some "summary:hi" :=
  C1 (search_chain_model demoSummarize) (writer_chain_model demoWrite)
    [("question", "hi")] "summary:hi" "hi" rfl rfl

/-- C2 counterexample: invoking the typed chain with question = "" raises no
validation error — the invocation completes normally (a .ok result) and the
very first event of the run is the Web Search Stage being invoked on the
context holding the empty question, i.e. a provider call is made. -/
theorem C2_counterexample :
    (chain (search_chain_model demoSummarize)
        (writer_chain_model demoWrite)).invoke [("question", "")] =
      .ok "answer:;summary:" ∧
    (chain_notypes_trace (search_chain_model demoSummarize)
        (writer_chain_model demoWrite) [("question", "")]).2.head? =
      some (Call.search [("question", "")]) :=
  ⟨rfl, rfl⟩

/-- C2 amended: invoking with question = "" raises no validation error and
does not avoid provider calls: the schema accepts the empty string as a valid
question, with_types attaches the schema as metadata only so the typed chain
behaves exactly like the untyped one, and the run begins by invoking the Web
Search Stage on the empty question. -/
theorem C2_amended (search_chain writer_chain : Ctx → Except Err String) :
    InputType.conforms [("question", "")] = true ∧
    (chain search_chain writer_chain).invoke [("question", "")] =
      chain_notypes search_chain writer_chain [("question", "")] ∧
    (chain_notypes_trace search_chain writer_chain [("question", "")]).2.head? =
      some (Call.search [("question", "")]) := by
  refine ⟨rfl, rfl, ?_⟩
  cases h : search_chain [("question", "")] <;> simp [chain_notypes_trace, h]

/-- C3 counterexample: on a context that already binds research_summary to
"old", the assign step replaces that value with the Web Search Stage's output,
so an existing key's value IS overwritten. -/
theorem C3_counterexample :
    assign_research_summary (search_chain_model demoSummarize)
        [("question", "q"), ("research_summary", "old")] =
      .ok [("question", "q"), ("research_summary", "summary:q")] ∧
    ("summary:q" : String) ≠ "old" :=
  ⟨rfl, by decide⟩

/-- C3 amended: context mutation preserves every key other than
research_summary (in particular the question), but the research_summary key
itself is set to the Web Search Stage's output, overwriting any pre-existing
value. -/
theorem C3_amended (search_chain : Ctx → Except Err String) (ctx m : Ctx)
    (k : String)
    (hm : assign_research_summary search_chain ctx = .ok m) :
    (k ≠ "research_summary" → Ctx.get m k = Ctx.get ctx k) ∧
    (∃ s, search_chain ctx = .ok s ∧
      Ctx.get m "research_summary" = some s) := by
  obtain ⟨s, hs, rfl⟩ := (assign_ok_iff search_chain ctx m).1 hm
  exact ⟨fun hk => Ctx.get_set_ne ctx _ k s hk,
    ⟨s, hs, Ctx.get_set_same ctx _ s⟩⟩

/-- C3 amended claim applied to the concrete context that already binds
research_summary. -/
theorem C3_witness :
    (("extra" : String) ≠ "research_summary" →
      Ctx.get [("question", "q"), ("research_summary", "summary:q")] "extra" =
        Ctx.get [("question", "q"), ("research_summary", "old")] "extra") ∧
    (∃ s, search_chain_model demoSummarize
        [("question", "q"), ("research_summary", "old")] = .ok s ∧
      Ctx.get [("question", "q"), ("research_summary", "summary:q")]
        "research_summary" = some s) :=
  C3_amended (search_chain_model demoSummarize)
    [("question", "q"), ("research_summary", "old")]
    [("question", "q"), ("research_summary", "summary:q")] "extra" rfl

/-- C4: the pipeline runs in the fixed order search-then-writer: either the
search stage fails and is the only stage invoked, or it succeeds with some
summary s, the writer is invoked exactly once, after the search call, on the
merged record, and that record already has research_summary attached. -/
theorem C4 (search_chain writer_chain : Ctx → Except Err String) (ctx : Ctx) :
    (∃ e, search_chain ctx = .error e ∧
      (chain_notypes_trace search_chain writer_chain ctx).2 = [Call.search ctx]) ∨
    (∃ s, search_chain ctx = .ok s ∧
      (chain_notypes_trace search_chain writer_chain ctx).2 =
        [Call.search ctx, Call.writer (Ctx.set ctx "research_summary" s)] ∧
      Ctx.get (Ctx.set ctx "research_summary" s) "research_summary" = some s) := by
  cases h : search_chain ctx with
  | error e => exact Or.inl ⟨e, rfl, by simp [chain_notypes_trace, h]⟩
  | ok s =>
    exact Or.inr ⟨s, rfl, by simp [chain_notypes_trace, h], Ctx.get_set_same ctx _ s⟩

/-- C5: a stage error is propagated unchanged as the single pipeline-level
error — an error in the search stage or in the writer stage becomes the
pipeline's error, and a successful pipeline result can only arise from both
stages succeeding, so no partial result is ever returned silently. -/
theorem C5 (search_chain writer_chain : Ctx → Except Err String) (ctx : Ctx) :
    (∀ e, search_chain ctx = .error e →
      chain_notypes search_chain writer_chain ctx = .error e) ∧
    (∀ s e, search_chain ctx = .ok s →
      writer_chain (Ctx.set ctx "research_summary" s) = .error e →
      chain_notypes search_chain writer_chain ctx = .error e) ∧
    (∀ t, chain_notypes search_chain writer_chain ctx = .ok t →
      ∃ s, search_chain ctx = .ok s ∧
        writer_chain (Ctx.set ctx "research_summary" s) = .ok t) := by
  refine ⟨?_, ?_, fun t ht => chain_notypes_ok_elim _ _ _ t ht⟩
  · intro e he
    simp [chain_notypes, assign_research_summary, he, Except.map, Except.bind]
  · intro s e hs hw
    simp [chain_notypes, assign_research_summary, hs, hw, Except.map, Except.bind]

/-- C5 applied to a search stage that cannot reach the network: the pipeline
propagates exactly that error. -/
theorem C5_witness :
    chain_notypes failSearch (writer_chain_model demoWrite) [("question", "q")] =
      .error ⟨"network unreachable"⟩ :=
  (C5 failSearch (writer_chain_model demoWrite) [("question", "q")]).1
    ⟨"network unreachable"⟩ rfl

/-- C6: for every context holding a non-empty question, if the writer stage's
generation provider never succeeds with empty text (its spec contract), then
invoking the typed chain either fails with a pipeline-level error or returns
non-empty text — never an empty success result. -/
theorem C6 (summarize_research : String → Except Err String)
    (write_answer : String → String → Except Err String) (ctx : Ctx)
    (q t : String)
    (_hq : Ctx.get ctx "question" = some q) (_hne : q ≠ "")
    (hw : ∀ q' s' a, write_answer q' s' = .ok a → a ≠ "")
    (hr : (chain (search_chain_model summarize_research)
        (writer_chain_model write_answer)).invoke ctx = .ok t) :
    t ≠ "" := by
  obtain ⟨s, -, hwr⟩ :=
    chain_notypes_ok_elim (search_chain_model summarize_research)
      (writer_chain_model write_answer) ctx t hr
  exact hw _ _ t hwr

/-- C6 applied to a concrete non-empty question with a provider whose
successful outputs are all the non-empty string "ok". -/
theorem C6_witness : ("ok" : String) ≠ "" :=
  C6 demoSummarize constWrite [("question", "q")] "q" "ok" rfl (by decide)
    (by
      intro q' s' a h
      simp [constWrite] at h
      subst h
      decide)
    rfl

/-- C7: two runs of the Web Search Stage on the same context (the stage is
nondeterministic, so the runs may produce different merged contexts m1 and
m2), each merged into an independent copy of the context, leave the question
field identical in both results: merging never mutates the question. -/
theorem C7 (search_run1 search_run2 : Ctx → Except Err String) (ctx m1 m2 : Ctx)
    (h1 : assign_research_summary search_run1 ctx = .ok m1)
    (h2 : assign_research_summary search_run2 ctx = .ok m2) :
    Ctx.get m1 "question" = Ctx.get ctx "question" ∧
    Ctx.get m2 "question" = Ctx.get m1 "question" := by
  obtain ⟨s1, -, rfl⟩ := (assign_ok_iff search_run1 ctx m1).1 h1
  obtain ⟨s2, -, rfl⟩ := (assign_ok_iff search_run2 ctx m2).1 h2
  rw [Ctx.get_set_ne ctx _ _ _ (by decide), Ctx.get_set_ne ctx _ _ _ (by decide)]
  exact ⟨rfl, rfl⟩

/-- C7 applied to two concrete runs with different summaries on the same
context. -/
theorem C7_witness :
    Ctx.get [("question", "q"), ("research_summary", "summary:q")] "question" =
      Ctx.get [("question", "q")] "question" ∧
    Ctx.get [("question", "q"), ("research_summary", "other")] "question" =
      Ctx.get [("question", "q"), ("research_summary", "summary:q")] "question" :=
  C7 (search_chain_model demoSummarize) (fun _ => .ok "other")
    [("question", "q")]
    [("question", "q"), ("research_summary", "summary:q")]
    [("question", "q"), ("research_summary", "other")] rfl rfl

/-- C8: within one invocation, the merged research_summary is exactly the
output of the summarizer applied to that same invocation's question, and every
binding of the merged context either is that research_summary binding or was
already present in the invocation's own input context — nothing from any other
invocation can appear. -/
theorem C8 (summarize_research : String → Except Err String) (ctx m : Ctx)
    (q : String)
    (hq : Ctx.get ctx "question" = some q)
    (hm : assign_research_summary (search_chain_model summarize_research) ctx =
      .ok m) :
    (∃ s, summarize_research q = .ok s ∧
      Ctx.get m "research_summary" = some s) ∧
    (∀ k v, Ctx.get m k = some v →
      k = "research_summary" ∨ Ctx.get ctx k = some v) := by
  obtain ⟨s, hs, rfl⟩ :=
    (assign_ok_iff (search_chain_model summarize_research) ctx m).1 hm
  have hs' : summarize_research q = .ok s := by
    simpa [search_chain_model, hq] using hs
  refine ⟨⟨s, hs', Ctx.get_set_same ctx _ s⟩, ?_⟩
  intro k v hv
  by_cases hk : k = "research_summary"
  · exact Or.inl hk
  · rw [Ctx.get_set_ne ctx _ _ _ hk] at hv
    exact Or.inr hv

/-- C8 applied to a concrete invocation: its merged summary is computed from
its own question alone. -/
theorem C8_witness :
    (∃ s, demoSummarize "q" = .ok s ∧
      Ctx.get [("question", "q"), ("research_summary", "summary:q")]
        "research_summary" = some s) ∧
    (∀ k v,
      Ctx.get [("question", "q"), ("research_summary", "summary:q")] k = some v →
      k = "research_summary" ∨ Ctx.get [("question", "q")] k = some v) :=
  C8 demoSummarize [("question", "q")]
    [("question", "q"), ("research_summary", "summary:q")] "q" rfl rfl

/-- C9: the typed chain (chain, i.e. chain_notypes wrapped by with_types with
the InputType schema) computes exactly the same function as chain_notypes on
every input: attaching the input schema changes no runtime behaviour and
rejects no input that chain_notypes accepts. -/
theorem C9 (search_chain writer_chain : Ctx → Except Err String) (ctx : Ctx) :
    (chain search_chain writer_chain).invoke ctx =
      chain_notypes search_chain writer_chain ctx :=
  rfl

/-- C10 counterexample: the key research_summary is not mentioned in the
InputType schema, so a pre-bound research_summary is an extra input key in the
claim's scope — yet it is not passed through unchanged: the Writer Stage
receives the context with that binding replaced by the search output, so the
value "stale" visible at the entry point is no longer visible to the writer. -/
theorem C10_counterexample :
    (chain_notypes_trace (search_chain_model demoSummarize)
        (writer_chain_model demoWrite)
        [("question", "q2"), ("research_summary", "stale")]).2 =
      [Call.search [("question", "q2"), ("research_summary", "stale")],
       Call.writer [("question", "q2"), ("research_summary", "summary:q2")]] ∧
    Ctx.get [("question", "q2"), ("research_summary", "summary:q2")]
        "research_summary" ≠ some "stale" :=
  ⟨rfl, by decide⟩

/-- C10 amended: any extra key bound in the input mapping other than
research_summary is passed through the orchestrator unchanged and is visible
in the context the Writer Stage receives — the orchestrator never projects the
context down to the declared schema fields; the one exception is an extra
research_summary binding, which the assign step overwrites with the Web Search
Stage's output. -/
theorem C10 (search_chain writer_chain : Ctx → Except Err String) (ctx : Ctx)
    (s k v : String)
    (hs : search_chain ctx = .ok s)
    (hk : k ≠ "research_summary")
    (hv : Ctx.get ctx k = some v) :
    (chain_notypes_trace search_chain writer_chain ctx).2 =
      [Call.search ctx, Call.writer (Ctx.set ctx "research_summary" s)] ∧
    Ctx.get (Ctx.set ctx "research_summary" s) k = some v ∧
    Ctx.get (Ctx.set ctx "research_summary" s) "research_summary" = some s := by
  refine ⟨by simp [chain_notypes_trace, hs], ?_, Ctx.get_set_same ctx _ s⟩
  rw [Ctx.get_set_ne ctx _ _ _ hk]
  exact hv

/-- C10 amended claim applied to a context carrying an extra key beyond the
schema. -/
theorem C10_witness :
    (chain_notypes_trace (search_chain_model demoSummarize)
        (writer_chain_model demoWrite)
        [("question", "q"), ("extra", "x")]).2 =
      [Call.search [("question", "q"), ("extra", "x")],
       Call.writer (Ctx.set [("question", "q"), ("extra", "x")]
         "research_summary" "summary:q")] ∧
    Ctx.get (Ctx.set [("question", "q"), ("extra", "x")]
        "research_summary" "summary:q") "extra" = some "x" ∧
    Ctx.get (Ctx.set [("question", "q"), ("extra", "x")]
        "research_summary" "summary:q") "research_summary" = some "summary:q" :=
  C10 (search_chain_model demoSummarize) (writer_chain_model demoWrite)
    [("question", "q"), ("extra", "x")] "summary:q" "extra" "x"
    rfl (by decide) rfl

end SqlResearchAssistant
